import Mathlib

/-!
Verification of the external-downloader supervision engine of
`yt_dlp/downloader/external.py`: backend capability negotiation
(`ExternalFD.supports`), the fragment retry/skip/reassembly algorithm
(`ExternalFD._call_downloader`), command construction for curl/wget
(`CurlFD._make_cmd`, `WgetFD._make_cmd`), the aria2c JSON-RPC progress
monitor (`Aria2cFD._call_process`), and interrupt handling
(`ExternalFD.real_download`, `FFmpegFD._call_downloader`).

Fragment file contents are modelled as `List Nat` (byte sequences), the
filesystem restricted to the fragment files of one task as the
`Option (List Nat)` paired with each fragment (the content of
`<tmpfilename>-Frag<index>`, or `none` when the file is missing), and the
successive exit codes of the external process as a function
`Nat → Int` from invocation number to exit code.
-/

namespace ExternalDownloader

/-- `class Features(enum.Enum)` from `external.py`. -/
inductive Features
  | TO_STDOUT
  | MULTIPLE_FORMATS
deriving DecidableEq

/-- The per-backend class-level capability table: `SUPPORTED_PROTOCOLS`
and `SUPPORTED_FEATURES` class attributes of an `ExternalFD` subclass. -/
structure BackendClass where
  SUPPORTED_PROTOCOLS : List String
  SUPPORTED_FEATURES : List Features

/-- `ExternalFD` base-class defaults: protocols `('http', 'https', 'ftp', 'ftps')`,
no features. -/
def ExternalFD_class : BackendClass :=
  ⟨["http", "https", "ftp", "ftps"], []⟩

/-- `Aria2cFD` capability table. -/
def Aria2cFD_class : BackendClass :=
  ⟨["http", "https", "ftp", "ftps", "dash_frag_urls", "m3u8_frag_urls"], []⟩

/-- `FFmpegFD` capability table. -/
def FFmpegFD_class : BackendClass :=
  ⟨["http", "https", "ftp", "ftps", "m3u8", "m3u8_native", "rtsp", "rtmp",
    "rtmp_ffmpeg", "mms", "http_dash_segments"],
   [Features.TO_STDOUT, Features.MULTIPLE_FORMATS]⟩

/-- Python `str.split('+')` on the character list of a string: splits at every
`'+'`, keeping empty pieces (`''.split('+') == ['']`). Accumulator holds the
current piece reversed. -/
def splitPlusAux : List Char → List Char → List String
  | [], acc => [String.mk acc.reverse]
  | c :: cs, acc =>
    if c = '+' then String.mk acc.reverse :: splitPlusAux cs []
    else splitPlusAux cs (c :: acc)

/-- `info_dict['protocol'].split('+')`. -/
def splitPlus (protocol : String) : List String :=
  splitPlusAux protocol.toList []

/-- `ExternalFD.supports(cls, info_dict)`: the conjunction of
(a) `not info_dict.get('to_stdout') or Features.TO_STDOUT in cls.SUPPORTED_FEATURES`,
(b) `'+' not in info_dict['protocol'] or Features.MULTIPLE_FORMATS in cls.SUPPORTED_FEATURES`,
(c) `all(proto in cls.SUPPORTED_PROTOCOLS for proto in info_dict['protocol'].split('+'))`. -/
def supports (cls : BackendClass) (to_stdout : Bool) (protocol : String) : Bool :=
  (!to_stdout || cls.SUPPORTED_FEATURES.contains Features.TO_STDOUT)
  && (!(protocol.toList.contains '+') || cls.SUPPORTED_FEATURES.contains Features.MULTIPLE_FORMATS)
  && ((splitPlus protocol).all fun proto => cls.SUPPORTED_PROTOCOLS.contains proto)

/-- The options read by `ExternalFD._call_downloader` on the fragmented path:
`fragment_retries` (default 0), `skip_unavailable_fragments` (default True),
`keep_fragments` (default False). -/
structure FDParams where
  fragment_retries : Nat
  skip_unavailable_fragments : Bool
  keep_fragments : Bool

/-- The fragment retry `while` loop of `ExternalFD._call_downloader`:
`count = 0; while count <= fragment_retries: retcode = call(); if retcode == 0: break;
count += 1`.  `attempt` is the number of invocations made so far (also the index
into `exits`), the fuel is `fragment_retries + 1 - count`.  Returns the total
number of invocations and whether the loop stopped with exit code 0. -/
def retryAux (exits : Nat → Int) : Nat → Nat → Nat × Bool
  | attempt, 0 => (attempt, false)
  | attempt, fuel + 1 =>
    if exits attempt = 0 then (attempt + 1, true)
    else retryAux exits (attempt + 1) fuel

/-- The whole retry loop, started at `count = 0`. -/
def retryLoop (exits : Nat → Int) (fragment_retries : Nat) : Nat × Bool :=
  retryAux exits 0 (fragment_retries + 1)

/-- The reassembly `for frag_index, fragment in enumerate(info_dict['fragments'])`
loop of `ExternalFD._call_downloader`, started at index `i`.  Each list entry is
a fragment paired with the content of its file `<tmpfilename>-Frag<index>`
(`none` = the `sanitize_open` of the fragment file raises `OSError`).  A missing
file is skipped only when `skip_unavailable_fragments and frag_index > 1`,
otherwise the function returns `-1` (modelled `none`).  On success, returns the
bytes written to `dest` (each present fragment's bytes through
`decrypt_fragment`, in iteration order) and the indices of the fragment files
removed (`try_remove` runs unless `keep_fragments`). -/
def reassembleAux {α : Type} (decrypt : α → List Nat → List Nat) (skip keep : Bool) :
    Nat → List (α × Option (List Nat)) → Option (List Nat × List Nat)
  | _, [] => some ([], [])
  | i, (_, none) :: rest =>
    if skip && decide (i > 1) then reassembleAux decrypt skip keep (i + 1) rest
    else none
  | i, (f, some bytes) :: rest =>
    match reassembleAux decrypt skip keep (i + 1) rest with
    | none => none
    | some (out, removed) =>
      some (decrypt f bytes ++ out, if keep then removed else i :: removed)

/-- Reassembly over the whole fragment list, starting at `frag_index = 0`. -/
def reassemble {α : Type} (decrypt : α → List Nat → List Nat) (skip keep : Bool)
    (frags : List (α × Option (List Nat))) : Option (List Nat × List Nat) :=
  reassembleAux decrypt skip keep 0 frags

/-- `ExternalFD._call_downloader(tmpfilename, info_dict)`.  Returns the number
of `_call_process` invocations, the returned exit code, and (for the fragmented
path) the reassembly outcome.  `fragments = none` is the
`'fragments' not in info_dict` early path: one `_call_process`, its return code
returned directly.  Otherwise the retry loop runs; if it exhausts without a zero
exit and `skip_unavailable_fragments` is false the function reports an error and
returns `-1` without reassembling; otherwise it reassembles, returning `-1` on a
fatally missing fragment and `0` on success. -/
def call_downloader {α : Type} (exits : Nat → Int) (p : FDParams)
    (decrypt : α → List Nat → List Nat)
    (fragments : Option (List (α × Option (List Nat)))) :
    Nat × Int × Option (List Nat × List Nat) :=
  match fragments with
  | none => (1, exits 0, none)
  | some frags =>
    let r := retryLoop exits p.fragment_retries
    if !r.2 && !p.skip_unavailable_fragments then (r.1, -1, none)
    else
      match reassemble decrypt p.skip_unavailable_fragments p.keep_fragments frags with
      | none => (r.1, -1, none)
      | some out => (r.1, 0, some out)

/-- One download entry as returned by the aria2c RPC methods
`aria2.tellActive` / `aria2.tellStopped` in `Aria2cFD._call_process`:
the `completedLength`, `totalLength` and `downloadSpeed` keys (numeric
strings, read through `int(...)` / `float(...)`). -/
structure RpcEntry where
  completedLength : Int
  totalLength : Int
  downloadSpeed : Int
deriving DecidableEq

/-- What one iteration of the `while retval is None` RPC polling loop of
`Aria2cFD._call_process` decides to do after fetching `aktiva` (tellActive)
and `completed` (tellStopped, bounded by `abs(nr_frags)`). -/
inductive PollDecision
  | shutdown
  | updateSingle
  | updateFragmented
deriving DecidableEq

/-- The branch structure of one RPC poll iteration:
`if not aktiva and len(completed) == abs(nr_frags): aria2.shutdown; retval = p.wait(); break`,
else `if nr_frags < 0:` update single-file progress and continue, else update
fragmented progress.  `nrFrags` is `len(info_dict['fragments'])` when the task
is fragmented and `-1` otherwise. -/
def pollStep (nrFrags : Int) (aktiva completed : List RpcEntry) : PollDecision :=
  if aktiva = [] ∧ completed.length = nrFrags.natAbs then PollDecision.shutdown
  else if nrFrags < 0 then PollDecision.updateSingle
  else PollDecision.updateFragmented

/-- The progress fields computed by the fragmented branch of one RPC poll
iteration.  Python float arithmetic is modelled exactly over `ℚ`. -/
structure FragStatus where
  downloaded_bytes : Int
  total_bytes : ℚ
  speed : ℚ
  eta : Option ℚ
  fragment_index : Nat
deriving DecidableEq

/-- The fragmented-progress aggregation of `Aria2cFD._call_process`:
`total_bytes = sum(totalLength over [aktiva, completed])`, scaled by
`* nr_frags / (len(completed) + len(aktiva))` when either list is nonempty;
`total_completed = sum(totalLength over completed)`;
`dled_aktiva = sum(completedLength over aktiva)`;
`total_speed = sum(downloadSpeed over aktiva)`;
`dl_all = dled_aktiva + total_completed`; `eta` is
`try_get(0, lambda x: (total_bytes - dl_all) / total_speed)`, i.e. absent on
division by zero; `fragment_index = len(completed) + len(aktiva) // 2`. -/
def aggregate_fragmented (nrFrags : Int) (aktiva completed : List RpcEntry) : FragStatus :=
  let total_bytes0 : Int := ((aktiva.map RpcEntry.totalLength)
    ++ (completed.map RpcEntry.totalLength)).sum
  let total_bytes : ℚ :=
    if !completed.isEmpty || !aktiva.isEmpty then
      (total_bytes0 : ℚ) * (nrFrags : ℚ) / ((completed.length + aktiva.length : ℕ) : ℚ)
    else (total_bytes0 : ℚ)
  let total_completed : Int := (completed.map RpcEntry.totalLength).sum
  let dled_aktiva : Int := (aktiva.map RpcEntry.completedLength).sum
  let total_speed : ℚ := ((aktiva.map RpcEntry.downloadSpeed).map (fun s => (s : ℚ))).sum
  let dl_all : Int := dled_aktiva + total_completed
  ⟨dl_all, total_bytes,
   total_speed,
   if total_speed = 0 then none else some ((total_bytes - (dl_all : ℚ)) / total_speed),
   completed.length + aktiva.length / 2⟩

/-- What `_call_downloader` does as seen by `ExternalFD.real_download`:
either it returns an exit code, or a `KeyboardInterrupt` escapes it. -/
inductive CallOutcome
  | ret (code : Int)
  | interrupted
deriving DecidableEq

/-- What `ExternalFD.real_download` produces when no exception escapes it:
the exit code it saw, the boolean it returns (`retval == 0`), and whether the
`'finished'` status was emitted through `_hook_progress` (the `retval == 0`
branch). -/
structure DownloadResult where
  retval : Int
  success : Bool
  finishedStatusEmitted : Bool
deriving DecidableEq

/-- The tail of `ExternalFD.real_download` after `retval` is known: on
`retval == 0` emit the finished status and return True, else report the error
and return False. -/
def finish_phase (retval : Int) : DownloadResult :=
  ⟨retval, decide (retval = 0), decide (retval = 0)⟩

/-- `ExternalFD.real_download`: `try: retval = self._call_downloader(...)
except KeyboardInterrupt: if not info_dict.get('is_live'): raise; retval = 0`,
then the `finish_phase` tail.  `none` models the re-raised interrupt
propagating to the caller. -/
def real_download_result (is_live : Bool) (call : CallOutcome) : Option DownloadResult :=
  match call with
  | CallOutcome.ret r => some (finish_phase r)
  | CallOutcome.interrupted =>
    if is_live then some (finish_phase 0) else none

/-- The `except BaseException as e` handler of `FFmpegFD._call_downloader`
when `e` is a `KeyboardInterrupt`: `if live: retval = 0`; then
`if sys.platform != 'win32' and url not in ('-', 'pipe:')`: write `b'q'` to the
child and return `retval` without re-raising, else kill the child, wait, and
re-raise.  `captured` is the value `retval` holds when the handler runs. -/
def ffmpeg_interrupt_handler (live platform_win32 url_is_pipe : Bool)
    (captured : Int) : CallOutcome :=
  let retval := if live then 0 else captured
  if !platform_win32 && !url_is_pipe then CallOutcome.ret retval
  else CallOutcome.interrupted

/-- `FFmpegFD._call_downloader` as seen by `real_download`: when no interrupt
occurs it returns the process's exit code `normal_rv`; when a
`KeyboardInterrupt` arrives during the wait, the exception handler decides. -/
def ffmpeg_call_outcome (live platform_win32 url_is_pipe interrupted : Bool)
    (normal_rv captured : Int) : CallOutcome :=
  if interrupted then ffmpeg_interrupt_handler live platform_win32 url_is_pipe captured
  else CallOutcome.ret normal_rv

/-- `ExternalFD.real_download` running over `FFmpegFD._call_downloader`. -/
def ffmpeg_real_download (live platform_win32 url_is_pipe interrupted : Bool)
    (normal_rv captured : Int) : Option DownloadResult :=
  real_download_result live
    (ffmpeg_call_outcome live platform_win32 url_is_pipe interrupted normal_rv captured)

/-- Modelled from the spec: the repository's `cli_option` helper
(`yt_dlp/utils.py`, not under the provided sources) — CommandBuilder fragment
shape (2), "a valued flag": emits the flag and the option's value when the
option is present in the resolved options, else nothing. -/
def cli_option (value : Option String) (command_option : String) : List String :=
  match value with
  | some v => [command_option, v]
  | none => []

/-- Modelled from the spec: the repository's `cli_bool_option` helper —
CommandBuilder fragment shape (1), "a present/absent flag with explicit
true/false literals": when the boolean option is present, emits the flag and
the configured true/false literal. -/
def cli_bool_option (value : Option Bool) (command_option true_value false_value : String) :
    List String :=
  match value with
  | some b => [command_option, if b then true_value else false_value]
  | none => []

/-- Modelled from the spec: the repository's `cli_valueless_option` helper —
CommandBuilder fragment shape (3), "a valueless flag gated on a boolean
option". -/
def cli_valueless_option (value : Bool) (command_option : String) : List String :=
  if value then [command_option] else []

/-- The `info_dict.get('http_headers')` loop shared by the builders: one
`[flag, f'{key}: {val}']` pair per header, in mapping order. -/
def header_args (flag : String) (headers : Option (List (String × String))) : List String :=
  match headers with
  | some hs => hs.flatMap fun kv => [flag, kv.1 ++ ": " ++ kv.2]
  | none => []

/-- The option keys a generic HTTP backend's `_make_cmd` reads from
`self.params`, plus the raw `_configuration_args()` pass-through. -/
structure HttpOptions where
  continuedl : Option Bool
  noprogress : Bool
  verbose : Bool
  ratelimit : Option String
  retries : Option String
  max_filesize : Option String
  source_address : Option String
  proxy : Option String
  nocheckcertificate : Bool
  configuration_args : List String

/-- The retry block of `CurlFD._make_cmd`:
`retry = self._option('--retry', 'retries'); if len(retry) == 2:
if retry[1] in ('inf', 'infinite'): retry[1] = '2147483647'; cmd += retry`. -/
def curl_retry_args (retries : Option String) : List String :=
  match cli_option retries "--retry" with
  | [flag, v] => [flag, if v == "inf" || v == "infinite" then "2147483647" else v]
  | _ => []

/-- `CurlFD._make_cmd(tmpfilename, info_dict)`. -/
def CurlFD_make_cmd (exe tmpfilename : String)
    (headers : Option (List (String × String))) (p : HttpOptions) (url : String) :
    List String :=
  [exe, "--location", "-o", tmpfilename, "--compressed"]
  ++ header_args "--header" headers
  ++ cli_bool_option p.continuedl "--continue-at" "-" "0"
  ++ cli_valueless_option p.noprogress "--silent"
  ++ cli_valueless_option p.verbose "--verbose"
  ++ cli_option p.ratelimit "--limit-rate"
  ++ curl_retry_args p.retries
  ++ cli_option p.max_filesize "--max-filesize"
  ++ cli_option p.source_address "--interface"
  ++ cli_option p.proxy "--proxy"
  ++ cli_valueless_option p.nocheckcertificate "--insecure"
  ++ p.configuration_args
  ++ ["--", url]

/-- The retry block of `WgetFD._make_cmd`:
`retry = self._option('--tries', 'retries'); if len(retry) == 2:
if retry[1] in ('inf', 'infinite'): retry[1] = '0'; cmd += retry`. -/
def wget_retry_args (retries : Option String) : List String :=
  match cli_option retries "--tries" with
  | [flag, v] => [flag, if v == "inf" || v == "infinite" then "0" else v]
  | _ => []

/-- `WgetFD._make_cmd(tmpfilename, info_dict)`.  `if proxy:` is Python
truthiness on the string, modelled as a non-empty check. -/
def WgetFD_make_cmd (exe tmpfilename : String)
    (headers : Option (List (String × String))) (p : HttpOptions) (url : String) :
    List String :=
  [exe, "-O", tmpfilename, "-nv", "--no-cookies", "--compression=auto"]
  ++ header_args "--header" headers
  ++ cli_option p.ratelimit "--limit-rate"
  ++ wget_retry_args p.retries
  ++ cli_option p.source_address "--bind-address"
  ++ (match p.proxy with
      | some proxy =>
        if proxy ≠ "" then
          ["--execute", "http_proxy=" ++ proxy, "--execute", "https_proxy=" ++ proxy]
        else []
      | none => [])
  ++ cli_valueless_option p.nocheckcertificate "--no-check-certificate"
  ++ p.configuration_args
  ++ ["--", url]

/-- The retry loop makes at most `attempt + fuel` invocations in total. -/
theorem retryAux_fst_le (exits : Nat → Int) (fuel : Nat) :
    ∀ attempt, (retryAux exits attempt fuel).1 ≤ attempt + fuel := by
  induction fuel with
  | zero => intro attempt; simp [retryAux]
  | succ n ih =>
    intro attempt
    by_cases h : exits attempt = 0
    · simp [retryAux, h]
    · have hrec := ih (attempt + 1)
      simp [retryAux, h]
      omega

/-- When every invocation the loop can make fails, the loop exhausts its
budget and reports failure. -/
theorem retryAux_exhaust (exits : Nat → Int) (fuel : Nat) :
    ∀ attempt, (∀ j, j < fuel → exits (attempt + j) ≠ 0) →
      retryAux exits attempt fuel = (attempt + fuel, false) := by
  induction fuel with
  | zero => intro attempt _; simp [retryAux]
  | succ n ih =>
    intro attempt h
    have h0 : exits attempt ≠ 0 := by simpa using h 0 (Nat.succ_pos n)
    have hrec := ih (attempt + 1) ?_
    · rw [show attempt + (n + 1) = attempt + 1 + n by omega]
      simp [retryAux, h0, hrec]
    · intro j hj
      have h2 := h (j + 1) (by omega)
      have he : attempt + 1 + j = attempt + (j + 1) := by omega
      rw [he]
      exact h2

/-- C3: for every exit-code sequence and every `fragment_retries ≥ 0`, the
fragment retry loop of `ExternalFD._call_downloader` invokes the backend
process at most `fragment_retries + 1` times, and invokes it exactly once when
the first invocation exits with code 0. -/
theorem C3_fragment_retry_invocation_bound (exits : Nat → Int) (fragment_retries : Nat) :
    (retryLoop exits fragment_retries).1 ≤ fragment_retries + 1 ∧
    (exits 0 = 0 → (retryLoop exits fragment_retries).1 = 1) := by
  constructor
  · have h := retryAux_fst_le exits (fragment_retries + 1) 0
    simpa [retryLoop] using h
  · intro h0
    simp [retryLoop, retryAux, h0]

/-- C3 witness: with an exit-code sequence that starts with 0 and
`fragment_retries = 5`, the loop stays within 6 invocations and makes
exactly one. -/
theorem C3_fragment_retry_invocation_bound_witness :
    (retryLoop (fun _ => 0) 5).1 ≤ 6 ∧ (retryLoop (fun _ => 0) 5).1 = 1 :=
  ⟨(C3_fragment_retry_invocation_bound (fun _ => 0) 5).1,
   (C3_fragment_retry_invocation_bound (fun _ => 0) 5).2 rfl⟩

/-- C5: when the retry loop exhausts all `fragment_retries + 1` invocations
without a zero exit, `ExternalFD._call_downloader` fails with `-1` and never
reassembles if `skip_unavailable_fragments` is false, and proceeds to
reassembly (whose outcome then decides the result) if it is true. -/
theorem C5_retries_exhausted_policy {α : Type} (exits : Nat → Int) (p : FDParams)
    (decrypt : α → List Nat → List Nat) (frags : List (α × Option (List Nat)))
    (hex : ∀ i, i ≤ p.fragment_retries → exits i ≠ 0) :
    (p.skip_unavailable_fragments = false →
      call_downloader exits p decrypt (some frags) = (p.fragment_retries + 1, -1, none)) ∧
    (p.skip_unavailable_fragments = true →
      call_downloader exits p decrypt (some frags) =
        (p.fragment_retries + 1,
         match reassemble decrypt true p.keep_fragments frags with
         | none => (-1, none)
         | some out => (0, some out))) := by
  have hloop : retryLoop exits p.fragment_retries = (p.fragment_retries + 1, false) := by
    have h := retryAux_exhaust exits (p.fragment_retries + 1) 0 ?_
    · simpa [retryLoop] using h
    · intro j hj
      have := hex j (by omega)
      simpa using this
  constructor
  · intro hskip
    simp [call_downloader, hloop, hskip]
  · intro hskip
    cases hre : reassemble decrypt true p.keep_fragments frags with
    | none => simp [call_downloader, hloop, hskip, hre]
    | some out => simp [call_downloader, hloop, hskip, hre]

/-- C5 witness: with every exit code 1, `fragment_retries = 2` and skipping
disabled, the downloader makes 3 invocations and fails with `-1` without
reassembling. -/
theorem C5_retries_exhausted_policy_witness :
    call_downloader (fun _ => 1) ⟨2, false, false⟩ (fun (_ : Nat) b => b) (some []) =
      (3, -1, none) :=
  (C5_retries_exhausted_policy (fun _ => 1) ⟨2, false, false⟩ (fun (_ : Nat) b => b) []
    (fun _ _ => one_ne_zero)).1 rfl

/-- C10: for a task whose `info_dict` has no `'fragments'` key,
`ExternalFD._call_downloader` invokes `_call_process` exactly once, returns
that invocation's exit code directly, and the result is independent of the
`fragment_retries` / `skip_unavailable_fragments` / `keep_fragments`
settings. -/
theorem C10_no_fragment_list {α : Type} (exits : Nat → Int) (p q : FDParams)
    (decrypt : α → List Nat → List Nat) :
    call_downloader exits p decrypt none = (1, exits 0, none) ∧
    call_downloader exits p decrypt none = call_downloader exits q decrypt none :=
  ⟨rfl, rfl⟩

/-- Running the reassembly loop over a block of fragments whose files are all
present appends their decrypted bytes in order, removes their indices unless
retention is on, and continues with the rest of the list. -/
theorem reassembleAux_all_present {α : Type} (decrypt : α → List Nat → List Nat)
    (skip keep : Bool) (l : List (α × List Nat)) :
    ∀ (i : Nat) (rest : List (α × Option (List Nat))),
      reassembleAux decrypt skip keep i ((l.map fun q => (q.1, some q.2)) ++ rest) =
        (reassembleAux decrypt skip keep (i + l.length) rest).map
          (fun r => ((l.map fun q => decrypt q.1 q.2).flatten ++ r.1,
                     if keep then r.2 else List.range' i l.length ++ r.2)) := by
  induction l with
  | nil =>
    intro i rest
    cases h : reassembleAux decrypt skip keep i rest with
    | none => simp [h]
    | some r => simp [h]
  | cons hd tl ih =>
    intro i rest
    simp only [List.map_cons, List.cons_append, List.length_cons, reassembleAux]
    simp only [List.append_eq]
    rw [ih (i + 1) rest]
    rw [show i + (tl.length + 1) = i + 1 + tl.length by omega]
    cases h : reassembleAux decrypt skip keep (i + 1 + tl.length) rest with
    | none => simp
    | some r =>
      cases keep <;> simp [List.range'_succ, List.append_assoc]

/-- C1: reassembling a fragmented task whose fragment files are all present
writes exactly the concatenation of the decrypt transform applied to each
fragment's bytes in ascending index order, and afterwards every fragment file
is removed when `keep_fragments` is false and none is removed when it is
true. -/
theorem C1_reassembly_concat_and_cleanup {α : Type} (decrypt : α → List Nat → List Nat)
    (skip keep : Bool) (l : List (α × List Nat)) :
    reassemble decrypt skip keep (l.map fun q => (q.1, some q.2)) =
      some ((l.map fun q => decrypt q.1 q.2).flatten,
            if keep then [] else List.range l.length) := by
  have h := reassembleAux_all_present decrypt skip keep l 0 []
  rw [List.range_eq_range']
  simpa [reassemble, reassembleAux] using h

/-- C2: a missing fragment file at index 0 or 1 makes reassembly fail for
every skip policy, while with `skip_unavailable_fragments` on, a missing file
at an index above 1 is skipped and reassembly succeeds, writing the decrypted
bytes of all the other fragments. -/
theorem C2_missing_fragment_policy {α : Type} (decrypt : α → List Nat → List Nat)
    (skip keep : Bool) :
    (∀ (f : α) (rest : List (α × Option (List Nat))),
      reassemble decrypt skip keep ((f, none) :: rest) = none) ∧
    (∀ (e : α × Option (List Nat)) (f : α) (rest : List (α × Option (List Nat))),
      reassemble decrypt skip keep (e :: (f, none) :: rest) = none) ∧
    (∀ (l r : List (α × List Nat)) (f : α), 1 < l.length →
      reassemble decrypt true keep
          ((l.map fun q => (q.1, some q.2)) ++ (f, none) :: (r.map fun q => (q.1, some q.2))) =
        some ((l.map fun q => decrypt q.1 q.2).flatten ++ (r.map fun q => decrypt q.1 q.2).flatten,
              if keep then []
              else List.range' 0 l.length ++ List.range' (l.length + 1) r.length)) := by
  refine ⟨?_, ?_, ?_⟩
  · intro f rest
    simp [reassemble, reassembleAux]
  · intro e f rest
    obtain ⟨g, file⟩ := e
    cases file with
    | none => simp [reassemble, reassembleAux]
    | some bytes => simp [reassemble, reassembleAux]
  · intro l r f hl
    have h2 := reassembleAux_all_present decrypt true keep r (l.length + 1) []
    have h1 := reassembleAux_all_present decrypt true keep l 0
      ((f, none) :: (r.map fun q => (q.1, some q.2)))
    simp only [Nat.zero_add] at h1
    simp only [List.append_nil] at h2
    unfold reassemble
    rw [h1]
    have hmid : reassembleAux decrypt true keep l.length
        ((f, none) :: (r.map fun q => (q.1, some q.2))) =
        reassembleAux decrypt true keep (l.length + 1) (r.map fun q => (q.1, some q.2)) := by
      simp [reassembleAux, hl]
    rw [hmid, h2]
    cases keep <;> simp [reassembleAux, List.append_assoc]

/-- C2 witness: fragments 0 and 1 present, fragment 2 missing, fragment 3
present, skipping on and retention off — reassembly succeeds, the output is
the bytes of fragments 0, 1 and 3 in order, and exactly their files are
removed. -/
theorem C2_missing_fragment_policy_witness :
    reassemble (fun (_ : Nat) b => b) true false
        [(0, some [10]), (1, some [20]), (2, none), (3, some [30])] =
      some ([10, 20, 30], [0, 1, 3]) := by
  have h := (C2_missing_fragment_policy (fun (_ : Nat) b => b) true false).2.2
    [(0, [10]), (1, [20])] [(3, [30])] 2 (by decide)
  simpa using h

/-- Unfolding of `supports` into its three conjuncts. -/
theorem supports_eq_true_iff (cls : BackendClass) (to_stdout : Bool) (protocol : String) :
    supports cls to_stdout protocol = true ↔
      ((to_stdout = true → Features.TO_STDOUT ∈ cls.SUPPORTED_FEATURES) ∧
       (protocol.toList.contains '+' = true →
         Features.MULTIPLE_FORMATS ∈ cls.SUPPORTED_FEATURES) ∧
       (∀ proto ∈ splitPlus protocol, proto ∈ cls.SUPPORTED_PROTOCOLS)) := by
  unfold supports
  cases to_stdout <;> cases hpl : protocol.toList.contains '+' <;>
    simp [hpl, List.all_eq_true, and_assoc]

/-- C4: `ExternalFD.supports` returns true iff (a) the task is not stdout-only
or the backend declares `TO_STDOUT`, (b) the protocol tag contains no `'+'` or
the backend declares `MULTIPLE_FORMATS`, and (c) every token of the protocol
tag split on `'+'` is in the backend's supported-protocol set; in particular it
returns false whenever any token is outside the declared set. -/
theorem C4_supports_contract (cls : BackendClass) (to_stdout : Bool) (protocol : String) :
    (supports cls to_stdout protocol = true ↔
      ((to_stdout = true → Features.TO_STDOUT ∈ cls.SUPPORTED_FEATURES) ∧
       (protocol.toList.contains '+' = true →
         Features.MULTIPLE_FORMATS ∈ cls.SUPPORTED_FEATURES) ∧
       (∀ proto ∈ splitPlus protocol, proto ∈ cls.SUPPORTED_PROTOCOLS))) ∧
    (∀ proto ∈ splitPlus protocol, proto ∉ cls.SUPPORTED_PROTOCOLS →
      supports cls to_stdout protocol = false) := by
  refine ⟨supports_eq_true_iff cls to_stdout protocol, ?_⟩
  intro proto hmem hnot
  cases hsup : supports cls to_stdout protocol with
  | false => rfl
  | true =>
    exact absurd (((supports_eq_true_iff cls to_stdout protocol).mp hsup).2.2 proto hmem) hnot

/-- C4 witness: the base `ExternalFD` backend does not support the
`dash_frag_urls` protocol, so `supports` is false there. -/
theorem C4_supports_contract_witness :
    supports ExternalFD_class false "dash_frag_urls" = false :=
  (C4_supports_contract ExternalFD_class false "dash_frag_urls").2
    "dash_frag_urls" (by decide) (by decide)

/-- C6: in each fragmented RPC poll iteration, the scaled total size estimate
is the sum of `totalLength` over active and stopped entries, times the fragment
count, divided by the number of known entries, and the downloaded byte count is
the sum of `completedLength` over active entries plus the sum of `totalLength`
over stopped entries. -/
theorem C6_rpc_aggregation (nrFrags : Int) (aktiva completed : List RpcEntry)
    (h : aktiva ≠ [] ∨ completed ≠ []) :
    (aggregate_fragmented nrFrags aktiva completed).downloaded_bytes =
      (aktiva.map RpcEntry.completedLength).sum +
        (completed.map RpcEntry.totalLength).sum ∧
    (aggregate_fragmented nrFrags aktiva completed).total_bytes =
      ((((aktiva.map RpcEntry.totalLength).sum +
          (completed.map RpcEntry.totalLength).sum : ℤ) : ℚ) * (nrFrags : ℚ)) /
        ((aktiva.length + completed.length : ℕ) : ℚ) := by
  have hne : (!completed.isEmpty || !aktiva.isEmpty) = true := by
    rcases h with h | h <;> cases aktiva <;> cases completed <;> simp_all
  constructor
  · rfl
  · simp only [aggregate_fragmented, hne, if_true, List.sum_append]
    push_cast
    ring

/-- C6 witness: one active entry with completedLength 50 and totalLength 200
plus one stopped entry with totalLength 300, over fragment count 4 and 2 known
entries, give downloaded bytes 350 and total estimate 1000. -/
theorem C6_rpc_aggregation_witness :
    (aggregate_fragmented 4 [⟨50, 200, 0⟩] [⟨0, 300, 0⟩]).downloaded_bytes = 350 ∧
    (aggregate_fragmented 4 [⟨50, 200, 0⟩] [⟨0, 300, 0⟩]).total_bytes = 1000 := by
  have h := C6_rpc_aggregation 4 [⟨50, 200, 0⟩] [⟨0, 300, 0⟩] (Or.inl (by simp))
  refine ⟨?_, ?_⟩
  · rw [h.1]
    decide
  · rw [h.2]
    norm_num

/-- C7 as stated is false on the code: with a single non-fragmented transfer
(`nr_frags = -1`) whose one active entry has completedLength equal to
totalLength, the poll iteration does not issue the shutdown request — it takes
the single-file progress-update branch, because the loop only checks
`not aktiva and len(completed) == abs(nr_frags)`. -/
theorem C7_counterexample :
    pollStep (-1) [⟨100, 100, 5⟩] [] ≠ PollDecision.shutdown := by decide

/-- C7 (amended): the RPC polling loop issues the shutdown request and then
blocks on process exit exactly when there are no active transfers and the
stopped-transfer count equals `abs(nr_frags)` — the fragment count for a
fragmented task, and 1 for a single non-fragmented transfer (reached when the
transfer has moved to the stopped list, not when the active entry's completed
length equals its total length). -/
theorem C7_shutdown_iff (nrFrags : Int) (aktiva completed : List RpcEntry) :
    pollStep nrFrags aktiva completed = PollDecision.shutdown ↔
      (aktiva = [] ∧ completed.length = nrFrags.natAbs) := by
  by_cases h : aktiva = [] ∧ completed.length = nrFrags.natAbs
  · simp [pollStep, h]
  · by_cases h2 : nrFrags < 0 <;> simp [pollStep, h, h2]

/-- C7 witness: with 4 fragments, no active entries and 4 stopped entries, the
loop issues the shutdown. -/
theorem C7_shutdown_iff_witness :
    pollStep 4 [] [⟨0, 1, 0⟩, ⟨0, 1, 0⟩, ⟨0, 1, 0⟩, ⟨0, 1, 0⟩] = PollDecision.shutdown :=
  (C7_shutdown_iff 4 [] [⟨0, 1, 0⟩, ⟨0, 1, 0⟩, ⟨0, 1, 0⟩, ⟨0, 1, 0⟩]).mpr ⟨rfl, rfl⟩

/-- C8: when the retries option holds the sentinel `inf` or `infinite`, the
curl command vector carries `--retry 2147483647` and the wget command vector
carries `--tries 0` in its place, and for every retries value the argument
emitted after the retry flag is never one of the sentinels. -/
theorem C8_infinite_retry_literal (exe tmp url : String)
    (headers : Option (List (String × String))) (p : HttpOptions) (v : String)
    (hp : p.retries = some v) (hv : v = "inf" ∨ v = "infinite") :
    (∃ l r, CurlFD_make_cmd exe tmp headers p url = l ++ ["--retry", "2147483647"] ++ r) ∧
    (∃ l r, WgetFD_make_cmd exe tmp headers p url = l ++ ["--tries", "0"] ++ r) ∧
    (∀ w, (curl_retry_args (some w))[1]? ≠ some "inf" ∧
          (curl_retry_args (some w))[1]? ≠ some "infinite" ∧
          (wget_retry_args (some w))[1]? ≠ some "inf" ∧
          (wget_retry_args (some w))[1]? ≠ some "infinite") := by
  have hcurl : curl_retry_args p.retries = ["--retry", "2147483647"] := by
    rw [hp]
    rcases hv with rfl | rfl <;> decide
  have hwget : wget_retry_args p.retries = ["--tries", "0"] := by
    rw [hp]
    rcases hv with rfl | rfl <;> decide
  refine ⟨?_, ?_, ?_⟩
  · refine ⟨[exe, "--location", "-o", tmp, "--compressed"]
      ++ header_args "--header" headers
      ++ cli_bool_option p.continuedl "--continue-at" "-" "0"
      ++ cli_valueless_option p.noprogress "--silent"
      ++ cli_valueless_option p.verbose "--verbose"
      ++ cli_option p.ratelimit "--limit-rate",
      cli_option p.max_filesize "--max-filesize"
      ++ cli_option p.source_address "--interface"
      ++ cli_option p.proxy "--proxy"
      ++ cli_valueless_option p.nocheckcertificate "--insecure"
      ++ p.configuration_args
      ++ ["--", url], ?_⟩
    simp [CurlFD_make_cmd, hcurl, List.append_assoc]
  · refine ⟨[exe, "-O", tmp, "-nv", "--no-cookies", "--compression=auto"]
      ++ header_args "--header" headers
      ++ cli_option p.ratelimit "--limit-rate",
      cli_option p.source_address "--bind-address"
      ++ (match p.proxy with
          | some proxy =>
            if proxy ≠ "" then
              ["--execute", "http_proxy=" ++ proxy, "--execute", "https_proxy=" ++ proxy]
            else []
          | none => [])
      ++ cli_valueless_option p.nocheckcertificate "--no-check-certificate"
      ++ p.configuration_args
      ++ ["--", url], ?_⟩
    simp [WgetFD_make_cmd, hwget, List.append_assoc]
  · intro w
    by_cases hw : (w == "inf" || w == "infinite") = true
    · simp [curl_retry_args, wget_retry_args, cli_option, hw]
    · have hw2 := hw
      simp only [Bool.or_eq_true, beq_iff_eq, not_or] at hw2
      simp [curl_retry_args, wget_retry_args, cli_option, hw, hw2.1, hw2.2]

/-- C8 witness: with `retries = 'inf'`, the curl command carries
`--retry 2147483647` and the wget command carries `--tries 0`. -/
theorem C8_infinite_retry_literal_witness :
    (∃ l r, CurlFD_make_cmd "curl" "f.mp4" none
        ⟨none, false, false, none, some "inf", none, none, none, false, []⟩ "u" =
      l ++ ["--retry", "2147483647"] ++ r) ∧
    (∃ l r, WgetFD_make_cmd "wget" "f.mp4" none
        ⟨none, false, false, none, some "inf", none, none, none, false, []⟩ "u" =
      l ++ ["--tries", "0"] ++ r) :=
  ⟨(C8_infinite_retry_literal "curl" "f.mp4" "u" none
      ⟨none, false, false, none, some "inf", none, none, none, false, []⟩ "inf"
      rfl (Or.inl rfl)).1,
   (C8_infinite_retry_literal "wget" "f.mp4" "u" none
      ⟨none, false, false, none, some "inf", none, none, none, false, []⟩ "inf"
      rfl (Or.inl rfl)).2.1⟩

/-- C9 as stated is false on the code: for a non-live ffmpeg task on a
non-Windows platform with a regular file destination, a KeyboardInterrupt
during the backend call does not propagate to the caller —
`FFmpegFD._call_downloader` writes `b'q'` to the child and returns the captured
(non-zero) exit code, so `real_download` reports an ordinary failure. -/
theorem C9_counterexample :
    ffmpeg_real_download false false false true 0 (-1) = some (finish_phase (-1)) ∧
    ffmpeg_real_download false false false true 0 (-1) ≠ none := by decide

/-- C9 (amended): a KeyboardInterrupt during the backend call of a live task is
treated as a successful stop — not re-raised, exit code 0, the finished status
still emitted — both for the generic supervisor and for the ffmpeg backend.
For a non-live task, the generic supervisor re-raises the interrupt to the
caller; the ffmpeg backend re-raises it only on Windows or when the destination
is a pipe, and otherwise asks the child to quit and returns the captured exit
code without re-raising. -/
theorem C9_interrupt_policy (live : Bool) :
    (real_download_result live CallOutcome.interrupted =
      if live then some (finish_phase 0) else none) ∧
    ((finish_phase 0).success = true ∧ (finish_phase 0).finishedStatusEmitted = true) ∧
    (∀ pw pipe : Bool, ∀ nrv cap : Int,
      ffmpeg_real_download true pw pipe true nrv cap = some (finish_phase 0)) ∧
    (∀ pw pipe : Bool, ∀ nrv cap : Int,
      ffmpeg_real_download false pw pipe true nrv cap =
        if pw = false ∧ pipe = false then some (finish_phase cap) else none) := by
  refine ⟨?_, ⟨rfl, rfl⟩, ?_, ?_⟩
  · cases live <;> rfl
  · intro pw pipe nrv cap
    cases pw <;> cases pipe <;> rfl
  · intro pw pipe nrv cap
    cases pw <;> cases pipe <;>
      simp [ffmpeg_real_download, ffmpeg_call_outcome, ffmpeg_interrupt_handler,
        real_download_result]

/-- C9 witness: a live task interrupted mid-call still finishes successfully. -/
theorem C9_interrupt_policy_witness :
    real_download_result true CallOutcome.interrupted = some (finish_phase 0) := by
  have h := (C9_interrupt_policy true).1
  simpa using h

/-- C1 witness: fragments A = [1,2], B = [3], C = [4,5] with the identity
decrypt transform reassemble to exactly A ++ B ++ C, and with retention off all
three fragment files are removed. -/
theorem C1_reassembly_concat_and_cleanup_witness :
    reassemble (fun (_ : Nat) b => b) true false
        [(0, some [1, 2]), (1, some [3]), (2, some [4, 5])] =
      some ([1, 2, 3, 4, 5], [0, 1, 2]) := by
  have h := C1_reassembly_concat_and_cleanup (fun (_ : Nat) b => b) true false
    [(0, [1, 2]), (1, [3]), (2, [4, 5])]
  simpa using h

/-- C10 witness: a task without a fragment list returns the single invocation's
exit code whatever the retry and skip settings are. -/
theorem C10_no_fragment_list_witness :
    call_downloader (fun _ => 7) ⟨9, true, true⟩ (fun (_ : Nat) b => b) none =
      (1, 7, none) :=
  (C10_no_fragment_list (fun _ => 7) ⟨9, true, true⟩ ⟨0, false, false⟩
    (fun (_ : Nat) b => b)).1

end ExternalDownloader
